import Mathlib

/-!
Verification of the schema-driven record mapping code of the
nomad-schema-plugin-example repository (nomad_ML_smiles_reader and
nomad_analysis), as a shallow embedding in Lean 4.

Numeric magnitudes are modelled as rationals (`ℚ`): every quantity the
reader manipulates is a finite decimal from a JSON file, and all the
properties at stake (sign tests, equality of records) are scale-invariant,
so the positive constant factors of unit conversion (eV to joule,
kcal/mol, ...) performed by the external metainfo framework on storage do
not affect any statement below.  Absent values (Python `None`) are `none`.
-/

/- ===================================================================
   Embedding of src/src/nomad_ML_smiles_reader/properties.py
   =================================================================== -/

/-- Python / pint truthiness of an optional quantity, as used by the guard
`if self.value_homo and self.value_lumo` in `GapEnergy.extract_gap`
(properties.py line 127): `None` is falsy, and a pint quantity is falsy
exactly when its magnitude is zero. -/
def pintTruthy : Option ℚ → Bool
  | none => false
  | some q => decide (q ≠ 0)

/-- `GapEnergy` section (properties.py lines 95-130): quantities
`value_homo`, `value_lumo` and the derived `value`, each a scalar that may
be unset.  Magnitudes are kept in the unit the reader attaches (eV); the
framework-side rescaling to the declared unit `joule` is a fixed positive
factor and does not change any sign or truthiness test. -/
structure GapEnergy where
  value_homo : Option ℚ := none
  value_lumo : Option ℚ := none
  value : Option ℚ := none
deriving DecidableEq, Repr

/-- `GapEnergy.extract_gap` (properties.py lines 126-130):

    def extract_gap(self) -> None:
        if self.value_homo and self.value_lumo:
            value = self.value_homo - self.value_lumo
            if value.magnitude > 0.0:
                self.value = value

Under the truthiness guard both operands are `some`, so the subtraction is
rendered with `Option.getD 0` (the default is never reached). -/
def GapEnergy.extract_gap (self : GapEnergy) : GapEnergy :=
  if pintTruthy self.value_homo && pintTruthy self.value_lumo then
    let value := self.value_homo.getD 0 - self.value_lumo.getD 0
    if value > 0 then { self with value := some value } else self
  else self

/-- A physical-property section holding one optional scalar `value`.  The
classes `TotalEnergy`, `ElectronicEnergy`, `RepulsiveEnergy`,
`IonizationPotential`, `HeatOfFormation`, `Enthalpy`, `Entropy`,
`HeatCapacity` and `ZeroPointEnergy` of properties.py all declare exactly
this shape (one scalar float64 `value` with a fixed unit); they are
embedded by this single structure. -/
structure ScalarProperty where
  value : Option ℚ := none
deriving DecidableEq, Repr

/-- `MultipoleMoment` section (properties.py lines 146-165): scalar
`value` and a dipole vector `value_dipole` of shape [3]. -/
structure MultipoleMoment where
  value : Option ℚ := none
  value_dipole : Option (List ℚ) := none
deriving DecidableEq, Repr

/-- One parsed line of the raw `MSVAMP_ElectronicLevels` string
(reader.py lines 201-207).  The reader splits the string on newlines and
whitespace and converts the tokens with `int`/`float`; that string
processing is abstracted here, a row models one line after conversion:
`int(level[0])`, `float(level[1])`, `float(level[2])`, `float(level[3])`,
`int(level[-1])`. -/
structure ElectronicLevelRow where
  excitedState : ℤ
  valueEV : ℚ
  wavelengthNM : ℚ
  oscillatorStrength : ℚ
  transitionType : ℤ
deriving DecidableEq, Repr

/-- `ElectronicLevels` section (properties.py lines 238-298). -/
structure ElectronicLevels where
  type : Option String := none
  n_levels : Option ℤ := none
  excited_state : Option (List ℤ) := none
  value : Option (List ℚ) := none
  value_wavelength : Option (List ℚ) := none
  oscillator_strength : Option (List ℚ) := none
  transition_type : Option (List ℤ) := none
deriving DecidableEq, Repr

/-- `VibrationalModes` section (properties.py lines 301-345). -/
structure VibrationalModes where
  n_modes : Option ℤ := none
  value : Option (List String) := none
  frequency : Option (List ℚ) := none
  reduced_mass : Option (List ℚ) := none
  raman_intensity : Option (List ℚ) := none
deriving DecidableEq, Repr

/-- `VibrationalSpectrum` section (properties.py lines 348-375). -/
structure VibrationalSpectrum where
  n_frequencies : Option ℤ := none
  frequency : Option (List ℚ) := none
  value : Option (List ℚ) := none
deriving DecidableEq, Repr

/- ===================================================================
   Embedding of src/src/nomad_ML_smiles_reader/schema.py
   =================================================================== -/

/-- `ModelSystem` (schema.py lines 53-129); only the `smiles` quantity is
relevant to the claims, the other string identifiers behave identically. -/
structure ModelSystem where
  smiles : Option String := none
deriving DecidableEq, Repr

/-- `Simulation` (schema.py lines 361-371), restricted to its repeating
`model_system` sub-section, the only part `Outputs.normalize` reads. -/
structure Simulation where
  model_system : List ModelSystem := []
deriving DecidableEq, Repr

/-- `Outputs` (schema.py lines 304-358) together with the attributes the
reader assigns on it (reader.py lines 143-246).  schema.py declares
`model_system_ref` and the sub-sections `total_energy` ..
`multipole_moment`; the reader additionally assigns `enthalpy`, `entropy`,
`zero_point_energy`, `heat_capacity`, `electronic_levels`,
`vibrational_modes` and `vibrational_spectrum` as plain attributes. -/
structure Outputs where
  model_system_ref : Option ModelSystem := none
  total_energy : Option ScalarProperty := none
  electronic_energy : Option ScalarProperty := none
  repulsive_energy : Option ScalarProperty := none
  ionization_potential : Option ScalarProperty := none
  gap_energy : Option GapEnergy := none
  heat_of_formation : Option ScalarProperty := none
  multipole_moment : Option MultipoleMoment := none
  enthalpy : Option ScalarProperty := none
  entropy : Option ScalarProperty := none
  zero_point_energy : Option ScalarProperty := none
  heat_capacity : Option ScalarProperty := none
  electronic_levels : Option ElectronicLevels := none
  vibrational_modes : Option VibrationalModes := none
  vibrational_spectrum : Option VibrationalSpectrum := none
deriving DecidableEq, Repr

/-- `Outputs.set_model_system_ref` (schema.py lines 339-351): returns the
last `ModelSystem` of the parent when the parent exists and holds exactly
one `ModelSystem`, else `None`.  `self.m_parent` is passed explicitly; the
`model_systems is not None` test of the source is always true for the
repeating sub-section, which is a (possibly empty) list. -/
def Outputs.set_model_system_ref (parent : Option Simulation) : Option ModelSystem :=
  match parent with
  | some p => if p.model_system.length = 1 then p.model_system.getLast? else none
  | none => none

/-- `Outputs.normalize` (schema.py lines 353-358): assigns
`model_system_ref` from `set_model_system_ref` only when it is `None`
(the inherited `super().normalize` does not touch these fields). -/
def Outputs.normalize (self : Outputs) (parent : Option Simulation) : Outputs :=
  match self.model_system_ref with
  | none => { self with model_system_ref := Outputs.set_model_system_ref parent }
  | some _ => self

/- ===================================================================
   Embedding of the per-molecule parsing loop,
   src/src/nomad_ML_smiles_reader/reader.py lines 124-248
   =================================================================== -/

/-- One raw molecule object of the input JSON, restricted to the keys the
reader reads.  Each field models `molecule_data.get(key)` for the key
named in its comment; `none` is an absent key.  Raw array values are
lists, the `MSVAMP_ElectronicLevels` string is modelled by its parsed
rows (see `ElectronicLevelRow`). -/
structure RawMolecule where
  smiles : Option String := none
  totalEnergy : Option ℚ := none
  electronicEnergy : Option ℚ := none
  repulsiveEnergy : Option ℚ := none
  ionizationPotential : Option ℚ := none
  enthalpy : Option ℚ := none
  entropy : Option ℚ := none
  zeroPointEnergy : Option ℚ := none
  homoEnergy : Option ℚ := none
  lumoEnergy : Option ℚ := none
  heatOfFormation : Option ℚ := none
  heatCapacity : Option ℚ := none
  totalDipole : Option ℚ := none
  dipoleMoment : Option (List ℚ) := none
  electronicLevels : Option (List ElectronicLevelRow) := none
  vibrationalMode : Option (List String) := none
  vibrationalFrequency : Option (List ℚ) := none
  vibrationalReducedMass : Option (List ℚ) := none
  vibrationalRamanIntensity : Option (List ℚ) := none
  vibrationalIntensityStrength : Option (List ℚ) := none
  vibrationalIntensityFrequency : Option (List ℚ) := none
deriving DecidableEq, Repr

/-- A Python exception escaping the mapping pass. -/
inductive PyError
  | typeError
deriving DecidableEq, Repr

/-- Gap-energy parsing, reader.py lines 160-167: a `GapEnergy` section is
created when at least one of `MSVAMP_HOMOEnergy` / `MSVAMP_LUMOEnergy` is
present, each quantity set to the raw value (or `None`), then
`extract_gap` runs. -/
def parseGapEnergy (homo lumo : Option ℚ) : Option GapEnergy :=
  if homo.isSome || lumo.isSome then
    some (GapEnergy.extract_gap { value_homo := homo, value_lumo := lumo, value := none })
  else none

/-- Multipole parsing, reader.py lines 179-197: only fires when
`MSVAMP_TotalDipole` is present; `value_dipole` is the raw
`MSVAMP_DipoleMoment` list or `None`. -/
def parseMultipoleMoment (totalDipole : Option ℚ) (dipoleMoment : Option (List ℚ)) :
    Option MultipoleMoment :=
  totalDipole.map (fun td => { value := some td, value_dipole := dipoleMoment })

/-- Electronic-levels parsing, reader.py lines 199-213: only fires when
`MSVAMP_ElectronicLevels` is present; `n_levels` is the number of parsed
rows and the five columns are projected out of the rows. -/
def parseElectronicLevels (raw : Option (List ElectronicLevelRow)) :
    Option ElectronicLevels :=
  raw.map (fun levels =>
    { type := some "UV-VIS"
      n_levels := some (levels.length : ℤ)
      excited_state := some (levels.map ElectronicLevelRow.excitedState)
      value := some (levels.map ElectronicLevelRow.valueEV)
      value_wavelength := some (levels.map ElectronicLevelRow.wavelengthNM)
      oscillator_strength := some (levels.map ElectronicLevelRow.oscillatorStrength)
      transition_type := some (levels.map ElectronicLevelRow.transitionType) })

/-- Vibrational-modes parsing, reader.py lines 215-232: fires when
`MSVAMP_VibrationalMode` is present; `n_modes = len(vibrational_modes)`;
the three numeric arrays come from their own keys, each guarded by an
`... if ... is not None else None`. -/
def parseVibrationalModes (vm : Option (List String)) (vf vrm vri : Option (List ℚ)) :
    Option VibrationalModes :=
  vm.map (fun modes =>
    { n_modes := some (modes.length : ℤ)
      value := some modes
      frequency := vf
      reduced_mass := vrm
      raman_intensity := vri })

/-- Speed of light in cm/s: `ureg.speed_of_light` expressed against a
wavenumber in 1/cm gives Hz (reader.py line 245). -/
def speed_of_light : ℚ := 29979245800

/-- Vibrational-spectrum parsing, reader.py lines 234-246.  When
`MSVAMP_VibrationalIntensity_Strength` is present, the reader evaluates

    wavenumber = molecule_data.get('MSVAMP_VibrationalIntensity_Frequency') * ureg('1/cm')

with no `None` guard (line 242): an absent frequency key makes the
multiplication `None * ureg('1/cm')` raise a `TypeError`.  Otherwise
`frequency = (speed_of_light * wavenumber).to('Hz')`. -/
def parseVibrationalSpectrum (strength frequencyKey : Option (List ℚ)) :
    Except PyError (Option VibrationalSpectrum) :=
  match strength with
  | none => .ok none
  | some intensities =>
    match frequencyKey with
    | none => .error .typeError
    | some wavenumbers =>
      .ok (some
        { n_frequencies := some (intensities.length : ℤ)
          value := some intensities
          frequency := some (wavenumbers.map (fun w => speed_of_light * w)) })

/-- The whole `Outputs` part of one iteration of the per-molecule loop
(reader.py lines 143-246): every property is parsed from its own key,
absent keys leave the corresponding sub-section unset, and the one
unguarded access of the vibrational-spectrum block is the only statement
that can raise. -/
def parseOutputs (raw : RawMolecule) : Except PyError Outputs :=
  match parseVibrationalSpectrum raw.vibrationalIntensityStrength
      raw.vibrationalIntensityFrequency with
  | .error e => .error e
  | .ok vibSpectrum =>
    .ok
      { model_system_ref := none
        total_energy := raw.totalEnergy.map (fun e => { value := some e })
        electronic_energy := raw.electronicEnergy.map (fun e => { value := some e })
        repulsive_energy := raw.repulsiveEnergy.map (fun e => { value := some e })
        ionization_potential := raw.ionizationPotential.map (fun e => { value := some e })
        enthalpy := raw.enthalpy.map (fun e => { value := some e })
        entropy := raw.entropy.map (fun e => { value := some e })
        zero_point_energy := raw.zeroPointEnergy.map (fun e => { value := some e })
        gap_energy := parseGapEnergy raw.homoEnergy raw.lumoEnergy
        heat_of_formation := raw.heatOfFormation.map (fun c => { value := some c })
        heat_capacity := raw.heatCapacity.map (fun c => { value := some c })
        multipole_moment := parseMultipoleMoment raw.totalDipole raw.dipoleMoment
        electronic_levels := parseElectronicLevels raw.electronicLevels
        vibrational_modes := parseVibrationalModes raw.vibrationalMode
          raw.vibrationalFrequency raw.vibrationalReducedMass
          raw.vibrationalRamanIntensity
        vibrational_spectrum := vibSpectrum }

/- ===================================================================
   Embedding of src/src/nomad_analysis/schema.py (notebook rewriting)
   =================================================================== -/

/-- One Jupyter notebook cell; only its `source` text matters to
`overwrite_jupyter_notebook`.  The source is modelled as a character list
so that the `str.startswith` test is the decidable list-prefix test. -/
structure NotebookCell where
  source : List Char
deriving DecidableEq, Repr

/-- The marker `'# Pre-defined block'` that opens every regenerated cell
(schema.py lines 238-281, 329). -/
def predefinedMarker : List Char := "# Pre-defined block".toList

/-- `ELNJupyterAnalysis.overwrite_jupyter_notebook` (schema.py lines
312-339), restricted to its cell computation: starting from the freshly
regenerated predefined cells, it walks the existing notebook cells,
skips each cell whose source starts with `'# Pre-defined block'` and
appends every other cell.  (File I/O and the trusted-metadata flag are
outside the cell list.) -/
def overwrite_jupyter_notebook (predefinedCells : List NotebookCell)
    (nbCells : List NotebookCell) : List NotebookCell :=
  nbCells.foldl
    (fun cells cell =>
      if predefinedMarker.isPrefixOf cell.source then cells else cells ++ [cell])
    predefinedCells

/- ===================================================================
   Embedding of src/src/nomad_analysis/utils.py
   =================================================================== -/

/-- A module-level Python function as seen by `get_function_source`:
its source lines (as produced by `inspect.getsourcelines`) and its
optional `category` attribute (set by the `@category` decorator of
utils.py lines 28-41). -/
structure PyFunction where
  sourceLines : List (List Char)
  category : Option String
deriving DecidableEq, Repr

/-- `inspect.getsource`: the concatenation of the source lines. -/
def getsource (f : PyFunction) : List Char :=
  f.sourceLines.foldl (fun acc line => acc ++ line) []

/-- The decorator text skipped when collecting by category
(utils.py line 76). -/
def categoryDecoMarker : List Char := "@category".toList

/-- The per-function source used in the category branch of
`get_function_source` (utils.py lines 72-78): concatenation of the
source lines that do not start with `@category`. -/
def sourceWithoutCategoryDeco (f : PyFunction) : List Char :=
  (f.sourceLines.filter (fun line => !(categoryDecoMarker.isPrefixOf line))).foldl
    (fun acc line => acc ++ line) []

/-- The functions of src/src/nomad_analysis/analysis_source.py with their
`@category` decorations, the default module searched when `module` is
`None`.  Source bodies are abbreviated to their `def` line; only the
category tags influence `get_function_source`. -/
def analysis_source_members : List PyFunction :=
  [ { sourceLines := ["def get_input_data".toList], category := some "Generic" }
  , { sourceLines := ["def xrd_plot_intensity_two_theta".toList], category := some "XRD" }
  , { sourceLines := ["def xrd_plot_logy_intensity_two_theta".toList], category := some "XRD" }
  , { sourceLines := ["def xrd_find_peaks".toList], category := some "XRD" }
  , { sourceLines := ["def xrd_save_analysis_results".toList], category := some "XRD" }
  , { sourceLines := ["def xrd_conduct_analysis".toList], category := some "XRD" }
  , { sourceLines := ["def xrd_voila_analysis".toList], category := some "XRD" } ]

/-- `get_function_source` (utils.py lines 44-80): starts from an empty
list; appends `inspect.getsource(func)` when `category_name is None and
func is not None`; when `category_name is not None and func is None`,
appends the decorator-stripped source of every member of the module
(default `nomad_analysis.analysis_source`) whose `category` attribute
equals `category_name`. -/
def get_function_source (func : Option PyFunction) (category_name : Option String)
    (module : Option (List PyFunction)) : List (List Char) :=
  let func_sources : List (List Char) := []
  let func_sources :=
    match category_name, func with
    | none, some f => func_sources ++ [getsource f]
    | _, _ => func_sources
  let func_sources :=
    match category_name, func with
    | some cname, none =>
      let mod := module.getD analysis_source_members
      func_sources ++
        (mod.filter (fun obj => obj.category = some cname)).map
          sourceWithoutCategoryDeco
    | _, _ => func_sources
  func_sources

/- ===================================================================
   The generic Schema-Driven Record Mapper of spec.md sections 3-4.
   The repository contains only the ad hoc per-field reader embedded
   above; the general FieldSpec / Field Extractor / Record Mapper that
   sections 4.2-4.3 describe is not present under src/, so it is
   modelled here from the spec's words.
   =================================================================== -/

/-- Modelled from the spec: a raw input value, one of number, string,
list of number, list of string (spec.md section 6); an absent key is the
absence of an entry in the raw mapping. -/
inductive RawValue
  | num (q : ℚ)
  | str (s : String)
  | numList (l : List ℚ)
  | strList (l : List String)
deriving DecidableEq, Repr

/-- Modelled from the spec: a field shape — scalar, fixed-length array,
or an array bound by a named sibling count field (spec.md section 3,
FieldSpec). -/
inductive FieldShape
  | scalar
  | fixedLen (n : ℕ)
  | ref (countField : String)
deriving DecidableEq, Repr

/-- Modelled from the spec: the scalar type of a field (spec.md
section 3: float64/int32/string/bool). -/
inductive FieldType
  | float64
  | int32
  | string
  | bool
deriving DecidableEq, Repr

/-- Modelled from the spec: `FieldSpec` (spec.md section 3): name,
source key (defaults to the name but may be an explicit alias), scalar
type, optional unit, shape, required flag. -/
structure FieldSpec where
  name : String
  source_key : String
  ftype : FieldType
  unit : Option String
  shape : FieldShape
  required : Bool
deriving DecidableEq, Repr

/-- Modelled from the spec: the record-mapping-time field errors of
spec.md section 7. -/
inductive FieldError
  | missingRequired (field : String)
  | typeMismatch (field : String)
  | shapeMismatch (field : String) (expected actual : ℕ)
deriving DecidableEq, Repr

/-- The field a `FieldError` is tagged with. -/
def FieldError.field : FieldError → String
  | .missingRequired n => n
  | .typeMismatch n => n
  | .shapeMismatch n _ _ => n

/-- Modelled from the spec: a typed field value of a Record instance; a
scalar or array with a unit attached is a UnitValue (spec.md section 3). -/
inductive FieldValue
  | floatVal (q : ℚ)
  | unitVal (magnitude : ℚ) (unit : String)
  | intVal (z : ℤ)
  | strVal (s : String)
  | floatArr (l : List ℚ)
  | unitArr (magnitudes : List ℚ) (unit : String)
  | intArr (l : List ℤ)
  | strArr (l : List String)
deriving DecidableEq, Repr

/-- The length of an array-valued `FieldValue` (`none` on scalars). -/
def FieldValue.arrLen : FieldValue → Option ℕ
  | .floatArr l => some l.length
  | .unitArr l _ => some l.length
  | .intArr l => some l.length
  | .strArr l => some l.length
  | _ => none

/-- Modelled from the spec: outcome of extracting one field — absent
(optional field, missing key), a typed value, or a field error
(spec.md section 4.2). -/
inductive ExtractOutcome
  | absent
  | ok (v : FieldValue)
  | err (e : FieldError)
deriving DecidableEq, Repr

/-- First-match association-list lookup, the `raw_map[key]` /
`sibling_values[count_field]` access of spec.md section 4.2. -/
def alistFind {α : Type} (l : List (String × α)) (k : String) : Option α :=
  match l with
  | [] => none
  | p :: rest => if p.1 = k then some p.2 else alistFind rest k

/-- Modelled from the spec: best-effort scalar coercion to float64 —
numeric strings parse, other strings fail (spec.md section 4.2; string
parsing is modelled for unsigned integer literals). -/
def coerceFloat : RawValue → Option ℚ
  | .num q => some q
  | .str s => s.toNat?.map (fun n => (n : ℚ))
  | _ => none

/-- Modelled from the spec: best-effort scalar coercion to int32. -/
def coerceInt : RawValue → Option ℤ
  | .num q => if q.den = 1 then some q.num else none
  | .str s => s.toNat?.map (fun n => (n : ℤ))
  | _ => none

/-- Typed array contents after element coercion. -/
inductive ArrVal
  | floats (l : List ℚ)
  | ints (l : List ℤ)
  | strs (l : List String)
deriving DecidableEq, Repr

/-- Length of a typed array. -/
def ArrVal.len : ArrVal → ℕ
  | .floats l => l.length
  | .ints l => l.length
  | .strs l => l.length

/-- Modelled from the spec: coercion of a raw list to the element type
of an array field. -/
def coerceArr : FieldType → RawValue → Option ArrVal
  | .float64, .numList l => some (.floats l)
  | .int32, .numList l =>
    if l.all (fun q => q.den = 1) then some (.ints (l.map Rat.num)) else none
  | .string, .strList l => some (.strs l)
  | _, _ => none

/-- Modelled from the spec: unit attachment on arrays — a declared unit
wraps the magnitudes unchanged (spec.md section 4.2). -/
def attachArr (arr : ArrVal) (unit : Option String) : FieldValue :=
  match arr, unit with
  | .floats l, some u => .unitArr l u
  | .floats l, none => .floatArr l
  | .ints l, _ => .intArr l
  | .strs l, _ => .strArr l

/-- Modelled from the spec: the Field Extractor `extract(raw_map,
field_spec, sibling_values)` of spec.md section 4.2:
* missing key: absent when optional, `MissingRequiredFieldError` when
  required;
* scalar fields: best-effort type coercion, else `TypeMismatchError`;
  a declared unit wraps a bare number as a UnitValue in exactly that
  unit, magnitude unchanged (no inference, no conversion);
* array fields: element coercion, then the shape check — a fixed length
  must match exactly, and a sibling-bound shape reads
  `sibling_values[count_field]`, failing with `ShapeMismatchError`
  carrying expected and actual lengths when the count is absent,
  negative, or disagrees with the array length.
The input domain of spec.md section 6 carries no booleans, so a `bool`
field can never be populated from it. -/
def extract (raw : List (String × RawValue)) (fs : FieldSpec)
    (siblings : List (String × ℤ)) : ExtractOutcome :=
  match alistFind raw fs.source_key with
  | none => if fs.required then .err (.missingRequired fs.name) else .absent
  | some rv =>
    match fs.shape with
    | .scalar =>
      match fs.ftype with
      | .float64 =>
        match coerceFloat rv with
        | some q =>
          .ok (match fs.unit with | some u => .unitVal q u | none => .floatVal q)
        | none => .err (.typeMismatch fs.name)
      | .int32 =>
        match coerceInt rv with
        | some z => .ok (.intVal z)
        | none => .err (.typeMismatch fs.name)
      | .string =>
        match rv with
        | .str s => .ok (.strVal s)
        | _ => .err (.typeMismatch fs.name)
      | .bool => .err (.typeMismatch fs.name)
    | .fixedLen n =>
      match coerceArr fs.ftype rv with
      | some arr =>
        if arr.len = n then .ok (attachArr arr fs.unit)
        else .err (.shapeMismatch fs.name n arr.len)
      | none => .err (.typeMismatch fs.name)
    | .ref countField =>
      match coerceArr fs.ftype rv with
      | some arr =>
        match alistFind siblings countField with
        | some z =>
          if 0 ≤ z ∧ (arr.len : ℤ) = z then .ok (attachArr arr fs.unit)
          else .err (.shapeMismatch fs.name z.toNat arr.len)
        | none => .err (.shapeMismatch fs.name 0 arr.len)
      | none => .err (.typeMismatch fs.name)

/-- The integer-valued sibling values available to the shape check:
the already-extracted int32 scalars (the count fields). -/
def intSiblings (vals : List (String × FieldValue)) : List (String × ℤ) :=
  vals.filterMap (fun p =>
    match p.2 with
    | .intVal z => some (p.1, z)
    | _ => none)

/-- Modelled from the spec: a Record instance, a mapping from field name
to typed value; optional fields that are absent have no entry
(spec.md section 3). -/
structure MappedRecord where
  fields : List (String × FieldValue)
deriving DecidableEq, Repr

/-- The field-by-field pass of the Record Mapper (spec.md section 4.3):
fields are extracted in declaration order, extracted values become
sibling values for later shape checks, every error is appended to the
error list and the pass continues. -/
def mapFields (raw : List (String × RawValue)) :
    List FieldSpec → List (String × FieldValue) → List FieldError →
    List (String × FieldValue) × List FieldError
  | [], vals, errs => (vals, errs)
  | fs :: rest, vals, errs =>
    match extract raw fs (intSiblings vals) with
    | .absent => mapFields raw rest vals errs
    | .ok v => mapFields raw rest (vals ++ [(fs.name, v)]) errs
    | .err e => mapFields raw rest vals (errs ++ [e])

/-- The per-field outcomes of one mapping pass, in declaration order
(one outcome per field of the resolved spec). -/
def fieldOutcomes (raw : List (String × RawValue)) :
    List FieldSpec → List (String × FieldValue) → List ExtractOutcome
  | [], _ => []
  | fs :: rest, vals =>
    match extract raw fs (intSiblings vals) with
    | .absent => .absent :: fieldOutcomes raw rest vals
    | .ok v => .ok v :: fieldOutcomes raw rest (vals ++ [(fs.name, v)])
    | .err e => .err e :: fieldOutcomes raw rest vals

/-- The successfully extracted (name, value) pairs of one mapping pass. -/
def okPairs (raw : List (String × RawValue)) :
    List FieldSpec → List (String × FieldValue) → List (String × FieldValue)
  | [], _ => []
  | fs :: rest, vals =>
    match extract raw fs (intSiblings vals) with
    | .absent => okPairs raw rest vals
    | .ok v => (fs.name, v) :: okPairs raw rest (vals ++ [(fs.name, v)])
    | .err _ => okPairs raw rest vals

/-- The errors among a list of outcomes, in order. -/
def errsOf (outcomes : List ExtractOutcome) : List FieldError :=
  outcomes.filterMap (fun o =>
    match o with
    | .err e => some e
    | _ => none)

/-- Whether some collected error is tagged with a required field of the
spec (spec.md section 4.3: required-field errors void the Record). -/
def hasRequiredError (specs : List FieldSpec) (errs : List FieldError) : Bool :=
  errs.any (fun e => specs.any (fun fs => fs.name = e.field && fs.required))

/-- Modelled from the spec: `map_record` (spec.md section 4.3): runs the
extractor over all fields of the resolved spec, collecting every
field-level failure, and returns `(Record | None, list of FieldError)`.
The Record is `None` when a required field failed, or, in strict mode,
when any error at all occurred; otherwise the Record carries the
successfully extracted fields (failed and absent optional fields have no
entry). -/
def map_record (raw : List (String × RawValue)) (specs : List FieldSpec)
    (strict : Bool) : Option MappedRecord × List FieldError :=
  let pass := mapFields raw specs [] []
  (if (strict && !pass.2.isEmpty) || hasRequiredError specs pass.2 then none
   else some { fields := pass.1 }, pass.2)

/- ===================================================================
   Declaration order of the quantities of each property section of
   src/src/nomad_ML_smiles_reader/properties.py, for the field-ordering
   invariant.
   =================================================================== -/

/-- One `Quantity` declaration of a property class of properties.py:
its name and its declared shape (`shape=[]`, `shape=[3]`, or
`shape=[countFieldName]`). -/
structure QuantityDecl where
  declName : String
  shape : FieldShape
deriving DecidableEq, Repr

/-- `TotalEnergy` (properties.py lines 42-53). -/
def TotalEnergy.fieldDecls : List QuantityDecl :=
  [⟨"value", .scalar⟩]

/-- `ElectronicEnergy` (properties.py lines 56-66). -/
def ElectronicEnergy.fieldDecls : List QuantityDecl :=
  [⟨"value", .scalar⟩]

/-- `RepulsiveEnergy` (properties.py lines 69-79). -/
def RepulsiveEnergy.fieldDecls : List QuantityDecl :=
  [⟨"value", .scalar⟩]

/-- `IonizationPotential` (properties.py lines 82-92). -/
def IonizationPotential.fieldDecls : List QuantityDecl :=
  [⟨"value", .scalar⟩]

/-- `GapEnergy` (properties.py lines 95-124). -/
def GapEnergy.fieldDecls : List QuantityDecl :=
  [⟨"value_homo", .scalar⟩, ⟨"value_lumo", .scalar⟩, ⟨"value", .scalar⟩]

/-- `HeatOfFormation` (properties.py lines 133-143). -/
def HeatOfFormation.fieldDecls : List QuantityDecl :=
  [⟨"value", .scalar⟩]

/-- `MultipoleMoment` (properties.py lines 146-165); the quadrupole and
octupole quantities are commented out in the source. -/
def MultipoleMoment.fieldDecls : List QuantityDecl :=
  [⟨"value", .scalar⟩, ⟨"value_dipole", .fixedLen 3⟩]

/-- `Enthalpy` (properties.py lines 186-196). -/
def Enthalpy.fieldDecls : List QuantityDecl :=
  [⟨"value", .scalar⟩]

/-- `Entropy` (properties.py lines 199-209). -/
def Entropy.fieldDecls : List QuantityDecl :=
  [⟨"value", .scalar⟩]

/-- `HeatCapacity` (properties.py lines 212-222). -/
def HeatCapacity.fieldDecls : List QuantityDecl :=
  [⟨"value", .scalar⟩]

/-- `ZeroPointEnergy` (properties.py lines 225-235). -/
def ZeroPointEnergy.fieldDecls : List QuantityDecl :=
  [⟨"value", .scalar⟩]

/-- `ElectronicLevels` (properties.py lines 238-298): `type` and
`n_levels` scalars, then five arrays of shape `['n_levels']`. -/
def ElectronicLevels.fieldDecls : List QuantityDecl :=
  [ ⟨"type", .scalar⟩
  , ⟨"n_levels", .scalar⟩
  , ⟨"excited_state", .ref "n_levels"⟩
  , ⟨"value", .ref "n_levels"⟩
  , ⟨"value_wavelength", .ref "n_levels"⟩
  , ⟨"oscillator_strength", .ref "n_levels"⟩
  , ⟨"transition_type", .ref "n_levels"⟩ ]

/-- `VibrationalModes` (properties.py lines 301-345): `n_modes` scalar,
then four arrays of shape `['n_modes']`. -/
def VibrationalModes.fieldDecls : List QuantityDecl :=
  [ ⟨"n_modes", .scalar⟩
  , ⟨"value", .ref "n_modes"⟩
  , ⟨"frequency", .ref "n_modes"⟩
  , ⟨"reduced_mass", .ref "n_modes"⟩
  , ⟨"raman_intensity", .ref "n_modes"⟩ ]

/-- `VibrationalSpectrum` (properties.py lines 348-375):
`n_frequencies` scalar, then two arrays of shape `['n_frequencies']`. -/
def VibrationalSpectrum.fieldDecls : List QuantityDecl :=
  [ ⟨"n_frequencies", .scalar⟩
  , ⟨"frequency", .ref "n_frequencies"⟩
  , ⟨"value", .ref "n_frequencies"⟩ ]

/-- All property RecordSpecs registered by create_schema (reader.py
lines 73-99), in their resolved field order (each class inherits only
the placeholder `value` of `PhysicalProperty`, overwritten in place, so
the resolved order is the declaration order of the class itself). -/
def registeredSectionDecls : List (List QuantityDecl) :=
  [ TotalEnergy.fieldDecls
  , ElectronicEnergy.fieldDecls
  , RepulsiveEnergy.fieldDecls
  , IonizationPotential.fieldDecls
  , GapEnergy.fieldDecls
  , HeatOfFormation.fieldDecls
  , MultipoleMoment.fieldDecls
  , Enthalpy.fieldDecls
  , Entropy.fieldDecls
  , HeatCapacity.fieldDecls
  , ZeroPointEnergy.fieldDecls
  , ElectronicLevels.fieldDecls
  , VibrationalModes.fieldDecls
  , VibrationalSpectrum.fieldDecls ]

/-- Bounded check at one index: if the field at position `j` has a
sibling-bound shape, some strictly earlier position declares the named
count field as a scalar. -/
def countFieldBeforeAt (decls : List QuantityDecl) (j : ℕ) : Bool :=
  match decls.get? j with
  | some d =>
    match d.shape with
    | .ref countField =>
      (List.range j).any (fun i =>
        match decls.get? i with
        | some e => decide (e.declName = countField) && decide (e.shape = .scalar)
        | none => false)
    | _ => true
  | none => true

/-- The ordering invariant as a decidable whole-list check. -/
def orderingChecker (decls : List QuantityDecl) : Bool :=
  (List.range decls.length).all (countFieldBeforeAt decls)

/- ===================================================================
   Helper lemmas
   =================================================================== -/

/-- Folding a skip-or-append loop over a list equals appending the
filtered list: the shape of the cell loop of the notebook rewrite. -/
theorem foldl_skip_append_eq {α : Type} (p : α → Bool) (nb : List α) :
    ∀ acc : List α,
    nb.foldl (fun cells cell => if p cell then cells else cells ++ [cell]) acc
      = acc ++ nb.filter (fun c => !(p c)) := by
  induction nb with
  | nil => intro acc; simp
  | cons c rest ih =>
    intro acc
    cases hc : p c with
    | true => simp [List.foldl_cons, List.filter_cons, hc, ih]
    | false => simp [List.foldl_cons, List.filter_cons, hc, ih]

/-- When the vibrational-spectrum block does not raise, `parseOutputs`
returns the record assembled from the per-key parses. -/
theorem parseOutputs_eq_ok (raw : RawMolecule) (vs : Option VibrationalSpectrum)
    (hvs : parseVibrationalSpectrum raw.vibrationalIntensityStrength
        raw.vibrationalIntensityFrequency = .ok vs) :
    parseOutputs raw = .ok
      { model_system_ref := none
        total_energy := raw.totalEnergy.map (fun e => { value := some e })
        electronic_energy := raw.electronicEnergy.map (fun e => { value := some e })
        repulsive_energy := raw.repulsiveEnergy.map (fun e => { value := some e })
        ionization_potential := raw.ionizationPotential.map (fun e => { value := some e })
        enthalpy := raw.enthalpy.map (fun e => { value := some e })
        entropy := raw.entropy.map (fun e => { value := some e })
        zero_point_energy := raw.zeroPointEnergy.map (fun e => { value := some e })
        gap_energy := parseGapEnergy raw.homoEnergy raw.lumoEnergy
        heat_of_formation := raw.heatOfFormation.map (fun c => { value := some c })
        heat_capacity := raw.heatCapacity.map (fun c => { value := some c })
        multipole_moment := parseMultipoleMoment raw.totalDipole raw.dipoleMoment
        electronic_levels := parseElectronicLevels raw.electronicLevels
        vibrational_modes := parseVibrationalModes raw.vibrationalMode
          raw.vibrationalFrequency raw.vibrationalReducedMass
          raw.vibrationalRamanIntensity
        vibrational_spectrum := vs } := by
  unfold parseOutputs
  rw [hvs]

/- ===================================================================
   Claim theorems
   =================================================================== -/

/-- Claim C1: the spec's gap-energy rule says that whenever `value_homo`
and `value_lumo` are both present, `extract_gap` computes
`delta = value_homo - value_lumo` and sets `value` iff `delta > 0`.  The
code's guard `if self.value_homo and self.value_lumo` tests Python
truthiness, not presence, so a present HOMO of magnitude `0.0` is treated
as absent: here both inputs are present and `delta = 0 - (-2) = 2 > 0`,
yet the code leaves `value` unset.  This contradicts the quantity's own
docstring (properties.py lines 120-123), which promises the difference
whenever it is not negative; the truthiness test is a slip for an
`is not None` presence test (reader.py line 164 assigns `None` exactly
when the raw key is absent). -/
theorem extract_gap_zero_homo_eval :
    (GapEnergy.extract_gap
        { value_homo := some 0, value_lumo := some (-2), value := none }).value = none
      ∧ ((0 : ℚ) - (-2) > 0) := by
  constructor
  · rfl
  · norm_num

/-- Claim C2, counterexample: a raw molecule whose vibrational-intensity
values are present but whose vibrational-intensity frequency key is
absent does NOT map without raising — the unguarded
`molecule_data.get('MSVAMP_VibrationalIntensity_Frequency') * ureg('1/cm')`
(reader.py line 242) evaluates `None * ureg('1/cm')` and raises a
`TypeError`, aborting the mapping of the record. -/
theorem parseOutputs_missing_intensity_frequency_raises :
    parseOutputs { vibrationalIntensityStrength := some [1] }
      = .error PyError.typeError := rfl

/-- Claim C2, amended: a key that is absent for an optional field yields
an absent field and no error, and the mapping pass completes — except in
one case: when the vibrational-intensity values are present and the
vibrational-intensity frequency key is absent, the pass raises a
`TypeError` instead of completing.  Under the hypothesis that excludes
that one case, mapping always completes and every absent raw key leaves
the corresponding output field absent. -/
theorem parseOutputs_absent_optional_keys_amended : ∀ raw : RawMolecule,
    (raw.vibrationalIntensityStrength.isSome → raw.vibrationalIntensityFrequency.isSome) →
    ∃ o : Outputs, parseOutputs raw = .ok o
      ∧ (raw.totalEnergy = none → o.total_energy = none)
      ∧ (raw.electronicEnergy = none → o.electronic_energy = none)
      ∧ (raw.repulsiveEnergy = none → o.repulsive_energy = none)
      ∧ (raw.ionizationPotential = none → o.ionization_potential = none)
      ∧ (raw.enthalpy = none → o.enthalpy = none)
      ∧ (raw.entropy = none → o.entropy = none)
      ∧ (raw.zeroPointEnergy = none → o.zero_point_energy = none)
      ∧ (raw.homoEnergy = none → raw.lumoEnergy = none → o.gap_energy = none)
      ∧ (raw.heatOfFormation = none → o.heat_of_formation = none)
      ∧ (raw.heatCapacity = none → o.heat_capacity = none)
      ∧ (raw.totalDipole = none → o.multipole_moment = none)
      ∧ (raw.electronicLevels = none → o.electronic_levels = none)
      ∧ (raw.vibrationalMode = none → o.vibrational_modes = none)
      ∧ (raw.vibrationalIntensityStrength = none → o.vibrational_spectrum = none) := by
  intro raw h
  obtain ⟨vs, hvs, hvsnone⟩ :
      ∃ vs, parseVibrationalSpectrum raw.vibrationalIntensityStrength
          raw.vibrationalIntensityFrequency = .ok vs
        ∧ (raw.vibrationalIntensityStrength = none → vs = none) := by
    cases hs : raw.vibrationalIntensityStrength with
    | none => exact ⟨none, by simp [parseVibrationalSpectrum, hs], fun _ => rfl⟩
    | some xs =>
      have hf : raw.vibrationalIntensityFrequency.isSome := h (by simp [hs])
      cases hfreq : raw.vibrationalIntensityFrequency with
      | none => rw [hfreq] at hf; simp at hf
      | some ws =>
        exact ⟨some { n_frequencies := some (xs.length : ℤ), value := some xs, frequency := some (ws.map (fun w => speed_of_light * w)) }, by simp [parseVibrationalSpectrum, hs, hfreq], by simp [hs]⟩
  refine ⟨_, parseOutputs_eq_ok raw vs hvs, ?_, ?_, ?_, ?_, ?_, ?_, ?_, ?_, ?_, ?_, ?_, ?_, ?_, ?_⟩
  · intro hx; simp [hx]
  · intro hx; simp [hx]
  · intro hx; simp [hx]
  · intro hx; simp [hx]
  · intro hx; simp [hx]
  · intro hx; simp [hx]
  · intro hx; simp [hx]
  · intro hx hy; simp [parseGapEnergy, hx, hy]
  · intro hx; simp [hx]
  · intro hx; simp [hx]
  · intro hx; simp [parseMultipoleMoment, hx]
  · intro hx; simp [parseElectronicLevels, hx]
  · intro hx; simp [parseVibrationalModes, hx]
  · intro hx; exact hvsnone hx

/-- Claim C2, amended, witness: the all-absent raw molecule maps without
raising and every field of the resulting record is absent. -/
theorem parseOutputs_absent_optional_keys_amended_witness :
    ∃ o : Outputs, parseOutputs {} = .ok o
      ∧ (({} : RawMolecule).totalEnergy = none → o.total_energy = none)
      ∧ (({} : RawMolecule).electronicEnergy = none → o.electronic_energy = none)
      ∧ (({} : RawMolecule).repulsiveEnergy = none → o.repulsive_energy = none)
      ∧ (({} : RawMolecule).ionizationPotential = none → o.ionization_potential = none)
      ∧ (({} : RawMolecule).enthalpy = none → o.enthalpy = none)
      ∧ (({} : RawMolecule).entropy = none → o.entropy = none)
      ∧ (({} : RawMolecule).zeroPointEnergy = none → o.zero_point_energy = none)
      ∧ (({} : RawMolecule).homoEnergy = none → ({} : RawMolecule).lumoEnergy = none →
          o.gap_energy = none)
      ∧ (({} : RawMolecule).heatOfFormation = none → o.heat_of_formation = none)
      ∧ (({} : RawMolecule).heatCapacity = none → o.heat_capacity = none)
      ∧ (({} : RawMolecule).totalDipole = none → o.multipole_moment = none)
      ∧ (({} : RawMolecule).electronicLevels = none → o.electronic_levels = none)
      ∧ (({} : RawMolecule).vibrationalMode = none → o.vibrational_modes = none)
      ∧ (({} : RawMolecule).vibrationalIntensityStrength = none →
          o.vibrational_spectrum = none) :=
  parseOutputs_absent_optional_keys_amended {} (by simp)

/-- Claim C7: mapping the same raw molecule twice with the same schema
yields Records that are identical field for field — the per-molecule
parsing pass (including the derived gap-energy mutation) is a
deterministic pure computation of the raw input. -/
theorem parseOutputs_deterministic_fieldwise :
    ∀ (raw : RawMolecule) (o₁ o₂ : Outputs),
    parseOutputs raw = .ok o₁ → parseOutputs raw = .ok o₂ →
    o₁.model_system_ref = o₂.model_system_ref
      ∧ o₁.total_energy = o₂.total_energy
      ∧ o₁.electronic_energy = o₂.electronic_energy
      ∧ o₁.repulsive_energy = o₂.repulsive_energy
      ∧ o₁.ionization_potential = o₂.ionization_potential
      ∧ o₁.gap_energy = o₂.gap_energy
      ∧ o₁.heat_of_formation = o₂.heat_of_formation
      ∧ o₁.multipole_moment = o₂.multipole_moment
      ∧ o₁.enthalpy = o₂.enthalpy
      ∧ o₁.entropy = o₂.entropy
      ∧ o₁.zero_point_energy = o₂.zero_point_energy
      ∧ o₁.heat_capacity = o₂.heat_capacity
      ∧ o₁.electronic_levels = o₂.electronic_levels
      ∧ o₁.vibrational_modes = o₂.vibrational_modes
      ∧ o₁.vibrational_spectrum = o₂.vibrational_spectrum := by
  intro raw o₁ o₂ h1 h2
  rw [h1] at h2
  injection h2 with h
  subst h
  exact ⟨rfl, rfl, rfl, rfl, rfl, rfl, rfl, rfl, rfl, rfl, rfl, rfl, rfl, rfl, rfl⟩

/-- Claim C7, witness: two runs on a concrete raw molecule agree field
for field. -/
theorem parseOutputs_deterministic_fieldwise_witness :
    (Outputs.model_system_ref {} = Outputs.model_system_ref {})
      ∧ (Outputs.total_energy {} = Outputs.total_energy {})
      ∧ (Outputs.electronic_energy {} = Outputs.electronic_energy {})
      ∧ (Outputs.repulsive_energy {} = Outputs.repulsive_energy {})
      ∧ (Outputs.ionization_potential {} = Outputs.ionization_potential {})
      ∧ (Outputs.gap_energy {} = Outputs.gap_energy {})
      ∧ (Outputs.heat_of_formation {} = Outputs.heat_of_formation {})
      ∧ (Outputs.multipole_moment {} = Outputs.multipole_moment {})
      ∧ (Outputs.enthalpy {} = Outputs.enthalpy {})
      ∧ (Outputs.entropy {} = Outputs.entropy {})
      ∧ (Outputs.zero_point_energy {} = Outputs.zero_point_energy {})
      ∧ (Outputs.heat_capacity {} = Outputs.heat_capacity {})
      ∧ (Outputs.electronic_levels {} = Outputs.electronic_levels {})
      ∧ (Outputs.vibrational_modes {} = Outputs.vibrational_modes {})
      ∧ (Outputs.vibrational_spectrum {} = Outputs.vibrational_spectrum {}) :=
  parseOutputs_deterministic_fieldwise {} {} {} rfl rfl

/-- Claim C8: `Outputs.normalize` assigns `model_system_ref` only when it
is currently unset, and then only to the parent's single `ModelSystem`
when the parent holds exactly one; with no parent, or zero or several
model systems, the reference stays unset; an already-set reference and
all other fields of `Outputs` are left unchanged. -/
theorem outputs_normalize_model_system_ref_frame :
    ∀ (o : Outputs) (parent : Option Simulation),
    (∀ r, o.model_system_ref = some r → o.normalize parent = o)
      ∧ (o.model_system_ref = none → ∀ p ms, parent = some p →
          p.model_system = [ms] →
          o.normalize parent = { o with model_system_ref := some ms })
      ∧ (o.model_system_ref = none → parent = none → o.normalize parent = o)
      ∧ (o.model_system_ref = none → ∀ p, parent = some p →
          p.model_system.length ≠ 1 → o.normalize parent = o) := by
  intro o parent
  refine ⟨?_, ?_, ?_, ?_⟩
  · intro r hr
    unfold Outputs.normalize
    rw [hr]
  · intro h0 p ms hp hms
    subst hp
    unfold Outputs.normalize
    rw [h0]
    simp [Outputs.set_model_system_ref, hms]
  · intro h0 hp
    subst hp
    unfold Outputs.normalize
    rw [h0]
    cases o
    simp_all [Outputs.set_model_system_ref]
  · intro h0 p hp hlen
    subst hp
    unfold Outputs.normalize
    rw [h0]
    cases o
    simp_all [Outputs.set_model_system_ref]

/-- Claim C8, witness: on an `Outputs` with unset reference and a parent
holding exactly one `ModelSystem`, normalize sets the reference to it. -/
theorem outputs_normalize_model_system_ref_frame_witness :
    Outputs.normalize {} (some { model_system := [{ smiles := some "C" }] })
      = { ({} : Outputs) with model_system_ref := some { smiles := some "C" } } :=
  (outputs_normalize_model_system_ref_frame {}
      (some { model_system := [{ smiles := some "C" }] })).2.1
    rfl { model_system := [{ smiles := some "C" }] } { smiles := some "C" } rfl rfl

/-- Claim C9: `overwrite_jupyter_notebook` preserves every user cell —
the rewritten notebook is exactly the freshly regenerated predefined
cells followed by the sublist (unchanged, in original relative order) of
the existing cells whose source does not start with
`'# Pre-defined block'`; only the marker-prefixed cells are dropped. -/
theorem overwrite_preserves_user_cells :
    ∀ (predefinedCells nbCells : List NotebookCell),
    overwrite_jupyter_notebook predefinedCells nbCells
      = predefinedCells
        ++ nbCells.filter (fun c => !(predefinedMarker.isPrefixOf c.source)) := by
  intro predefinedCells nbCells
  exact foldl_skip_append_eq (fun cell => predefinedMarker.isPrefixOf cell.source)
    nbCells predefinedCells

/-- Claim C10: `get_function_source` returns the empty list whenever its
`func` and `category_name` arguments are both `None` or both non-`None`;
a non-empty result is possible only when exactly one selector is
supplied. -/
theorem get_function_source_both_or_neither_empty :
    ∀ (func : Option PyFunction) (category_name : Option String)
      (module : Option (List PyFunction)),
    (func.isSome ↔ category_name.isSome) →
    get_function_source func category_name module = [] := by
  intro func category_name module h
  cases func with
  | none =>
    cases category_name with
    | none => rfl
    | some c => simp at h
  | some f =>
    cases category_name with
    | none => simp at h
    | some c => rfl

/-- Claim C10, witness: with both selectors absent the result is empty. -/
theorem get_function_source_both_or_neither_empty_witness :
    get_function_source none none none = [] :=
  get_function_source_both_or_neither_empty none none none Iff.rfl

/-- One mapping pass yields exactly one outcome per field of the
resolved spec. -/
theorem fieldOutcomes_length_eq (raw : List (String × RawValue)) :
    ∀ (specs : List FieldSpec) (vals : List (String × FieldValue)),
    (fieldOutcomes raw specs vals).length = specs.length := by
  intro specs
  induction specs with
  | nil => intro vals; rfl
  | cons fs rest ih =>
    intro vals
    simp only [fieldOutcomes]
    cases hex : extract raw fs (intSiblings vals) with
    | absent => simp [ih]
    | ok v => simp [ih]
    | err e => simp [ih]

/-- The error component of the mapping pass is the error sublist of the
per-field outcomes, appended to the incoming error accumulator. -/
theorem mapFields_snd_eq (raw : List (String × RawValue)) :
    ∀ (specs : List FieldSpec) (vals : List (String × FieldValue))
      (errs : List FieldError),
    (mapFields raw specs vals errs).2 = errs ++ errsOf (fieldOutcomes raw specs vals) := by
  intro specs
  induction specs with
  | nil => intro vals errs; simp [mapFields, fieldOutcomes, errsOf]
  | cons fs rest ih =>
    intro vals errs
    simp only [mapFields, fieldOutcomes]
    cases hex : extract raw fs (intSiblings vals) with
    | absent => simp [errsOf, ih]
    | ok v => simp [errsOf, ih]
    | err e => simp [errsOf, ih, List.append_assoc]

/-- The value component of the mapping pass is the ok-pair list of the
per-field outcomes, appended to the incoming value accumulator. -/
theorem mapFields_fst_eq (raw : List (String × RawValue)) :
    ∀ (specs : List FieldSpec) (vals : List (String × FieldValue))
      (errs : List FieldError),
    (mapFields raw specs vals errs).1 = vals ++ okPairs raw specs vals := by
  intro specs
  induction specs with
  | nil => intro vals errs; simp [mapFields, okPairs]
  | cons fs rest ih =>
    intro vals errs
    simp only [mapFields, okPairs]
    cases hex : extract raw fs (intSiblings vals) with
    | absent => simp [ih]
    | ok v => simp [ih, List.append_assoc]
    | err e => simp [ih]

/-- Claim C4: `map_record` extracts all fields in one pass (one outcome
per field of the resolved spec), continues past each individual field
failure instead of stopping at the first (the returned error list is the
full, in-order error sublist of the per-field outcomes), and returns the
pair of an optional Record and that error list (the Record, when
produced, carrying exactly the successfully extracted fields). -/
theorem map_record_fail_soft_collects_all :
    ∀ (raw : List (String × RawValue)) (specs : List FieldSpec) (strict : Bool),
    (fieldOutcomes raw specs []).length = specs.length
      ∧ (map_record raw specs strict).2 = errsOf (fieldOutcomes raw specs [])
      ∧ ((map_record raw specs strict).1 = none
          ∨ (map_record raw specs strict).1 = some { fields := okPairs raw specs [] }) := by
  intro raw specs strict
  refine ⟨fieldOutcomes_length_eq raw specs [], ?_, ?_⟩
  · have h := mapFields_snd_eq raw specs [] []
    simpa [map_record] using h
  · have h := mapFields_fst_eq raw specs [] []
    cases hcond : (strict && !(mapFields raw specs [] []).2.isEmpty)
        || hasRequiredError specs (mapFields raw specs [] []).2 with
    | true => left; simp [map_record, hcond]
    | false => right; simp [map_record, hcond, h]

/-- Claim C5: unit attachment without conversion — for a field whose
FieldSpec declares a unit and whose raw value is a bare number, the
extractor wraps the raw number as a UnitValue in exactly the declared
unit with the magnitude unchanged; it performs no unit inference and no
unit conversion (any conversion, such as eV to joule or wavenumber to
Hz, happens in the caller or rule layer, as in reader.py lines 157 and
242-245). -/
theorem extract_unit_attachment_no_conversion :
    ∀ (raw : List (String × RawValue)) (fs : FieldSpec)
      (siblings : List (String × ℤ)) (u : String) (q : ℚ),
    fs.shape = FieldShape.scalar → fs.ftype = FieldType.float64 →
    fs.unit = some u → alistFind raw fs.source_key = some (RawValue.num q) →
    extract raw fs siblings = .ok (.unitVal q u) := by
  intro raw fs siblings u q hshape htype hunit hfind
  simp [extract, hfind, hshape, htype, hunit, coerceFloat]

/-- Claim C5, witness: a bare raw number 5 under a FieldSpec declaring
unit joule extracts to the UnitValue of magnitude 5 and unit joule. -/
theorem extract_unit_attachment_no_conversion_witness :
    extract [("MSVAMP_TotalEnergy", RawValue.num 5)]
      { name := "value", source_key := "MSVAMP_TotalEnergy",
        ftype := FieldType.float64, unit := some "joule",
        shape := FieldShape.scalar, required := false } []
      = .ok (.unitVal 5 "joule") :=
  extract_unit_attachment_no_conversion _ _ _ "joule" 5 rfl rfl rfl (by decide)

/-- Soundness of the per-index ordering check: when it passes at an
index holding a sibling-bound field, a strictly earlier index declares
the named count field as a scalar. -/
theorem countFieldBeforeAt_sound (decls : List QuantityDecl) (j : ℕ)
    (hj : j < decls.length) (countField : String)
    (hshape : (decls.get ⟨j, hj⟩).shape = FieldShape.ref countField)
    (hc : countFieldBeforeAt decls j = true) :
    ∃ i, ∃ hi : i < decls.length, i < j
      ∧ (decls.get ⟨i, hi⟩).declName = countField
      ∧ (decls.get ⟨i, hi⟩).shape = FieldShape.scalar := by
  unfold countFieldBeforeAt at hc
  simp only [List.get?_eq_get hj, hshape] at hc
  obtain ⟨i, hmem, hcond⟩ := List.any_eq_true.mp hc
  have hij : i < j := List.mem_range.mp hmem
  have hi : i < decls.length := lt_trans hij hj
  rw [List.get?_eq_get hi] at hcond
  simp only [Bool.and_eq_true, decide_eq_true_eq] at hcond
  exact ⟨i, hi, hij, hcond.1, hcond.2⟩

/-- Claim C6: field-ordering invariant — for every registered property
RecordSpec, the resolved ordered field list places each sibling count
field (`n_levels`, `n_modes`, `n_frequencies`) strictly before every
array field whose shape references it, so count values are available
before dependent arrays are extracted. -/
theorem resolve_fields_count_before_dependents :
    ∀ decls ∈ registeredSectionDecls,
    ∀ (j : ℕ) (hj : j < decls.length) (countField : String),
    (decls.get ⟨j, hj⟩).shape = FieldShape.ref countField →
    ∃ i, ∃ hi : i < decls.length, i < j
      ∧ (decls.get ⟨i, hi⟩).declName = countField
      ∧ (decls.get ⟨i, hi⟩).shape = FieldShape.scalar := by
  intro decls hd j hj countField hshape
  have hc : orderingChecker decls = true := by
    simp only [registeredSectionDecls, List.mem_cons, List.not_mem_nil, or_false] at hd
    rcases hd with rfl | rfl | rfl | rfl | rfl | rfl | rfl | rfl | rfl | rfl | rfl | rfl | rfl | rfl <;> decide
  exact countFieldBeforeAt_sound decls j hj countField hshape
    (List.all_eq_true.mp hc j (List.mem_range.mpr hj))

/-- Claim C6, witness: in `VibrationalSpectrum`, the `frequency` field at
position 1 references `n_frequencies`, declared as a scalar at an
earlier position. -/
theorem resolve_fields_count_before_dependents_witness :
    ∃ i, ∃ hi : i < VibrationalSpectrum.fieldDecls.length, i < 1
      ∧ (VibrationalSpectrum.fieldDecls.get ⟨i, hi⟩).declName = "n_frequencies"
      ∧ (VibrationalSpectrum.fieldDecls.get ⟨i, hi⟩).shape = FieldShape.scalar :=
  resolve_fields_count_before_dependents VibrationalSpectrum.fieldDecls
    (by decide) 1 (by decide) "n_frequencies" (by decide)

/-- An association-list hit in a prefix survives appending. -/
theorem alistFind_append_some {α : Type} (l₁ l₂ : List (String × α)) (k : String)
    (v : α) (h : alistFind l₁ k = some v) : alistFind (l₁ ++ l₂) k = some v := by
  induction l₁ with
  | nil => simp [alistFind] at h
  | cons p rest ih =>
    by_cases hp : p.1 = k
    · simp only [alistFind, hp, if_true] at h ⊢
      simpa using h
    · simp only [alistFind, hp, if_false] at h ⊢
      exact ih h

/-- An association-list miss in a prefix defers to the suffix. -/
theorem alistFind_append_none {α : Type} (l₁ l₂ : List (String × α)) (k : String)
    (h : alistFind l₁ k = none) : alistFind (l₁ ++ l₂) k = alistFind l₂ k := by
  induction l₁ with
  | nil => rfl
  | cons p rest ih =>
    by_cases hp : p.1 = k
    · simp only [alistFind, hp, if_true] at h
      exact absurd h (by simp)
    · simp only [alistFind, hp, if_false] at h
      simp only [List.cons_append, alistFind, hp, if_false]
      exact ih h

/-- `intSiblings` distributes over append. -/
theorem intSiblings_append (l₁ l₂ : List (String × FieldValue)) :
    intSiblings (l₁ ++ l₂) = intSiblings l₁ ++ intSiblings l₂ :=
  List.filterMap_append l₁ l₂ _

/-- The array produced by unit attachment keeps its length. -/
theorem attachArr_arrLen (arr : ArrVal) (u : Option String) :
    (attachArr arr u).arrLen = some arr.len := by
  cases arr <;> cases u <;> rfl

/-- A successful extraction of a sibling-bound array field certifies the
sibling count: it is present among the sibling values, non-negative, and
equal to the array length. -/
theorem extract_ok_ref (raw : List (String × RawValue)) (fs : FieldSpec)
    (siblings : List (String × ℤ)) (countField : String) (v : FieldValue)
    (hshape : fs.shape = .ref countField)
    (h : extract raw fs siblings = .ok v) :
    ∃ z : ℤ, alistFind siblings countField = some z ∧ 0 ≤ z
      ∧ v.arrLen = some z.toNat := by
  unfold extract at h
  cases hq : alistFind raw fs.source_key with
  | none =>
    simp only [hq] at h
    by_cases hr : fs.required <;> simp [hr] at h
  | some rv =>
    simp only [hq, hshape] at h
    cases harr : coerceArr fs.ftype rv with
    | none => simp only [harr] at h; simp at h
    | some arr =>
      simp only [harr] at h
      cases hsib : alistFind siblings countField with
      | none => simp only [hsib] at h; simp at h
      | some z =>
        simp only [hsib] at h
        by_cases hcond : 0 ≤ z ∧ (arr.len : ℤ) = z
        · rw [if_pos hcond] at h
          injection h with hv
          refine ⟨z, rfl, hcond.1, ?_⟩
          rw [← hv, attachArr_arrLen]
          have : z.toNat = arr.len := by omega
          rw [this]
        · rw [if_neg hcond] at h
          simp at h

/-- The record-level sibling-count invariant: every array field present
in the value list whose spec shape references a count field has length
equal to that count's (present, non-negative) value. -/
def GoodVals (S : List FieldSpec) (vals : List (String × FieldValue)) : Prop :=
  ∀ fs ∈ S, ∀ countField, fs.shape = FieldShape.ref countField →
  ∀ v, alistFind vals fs.name = some v →
  ∃ z : ℤ, alistFind (intSiblings vals) countField = some z ∧ 0 ≤ z
    ∧ v.arrLen = some z.toNat

/-- The mapping pass preserves the sibling-count invariant: starting
from a good value accumulator, the values it produces are good (field
names of the full spec are assumed distinct, the registration-time
invariant of spec.md section 3). -/
theorem mapFields_goodVals (raw : List (String × RawValue)) (S : List FieldSpec)
    (hndS : (S.map FieldSpec.name).Nodup) :
    ∀ (rem : List FieldSpec), (∀ fs ∈ rem, fs ∈ S) →
    ∀ (vals : List (String × FieldValue)) (errs : List FieldError),
    GoodVals S vals → GoodVals S (mapFields raw rem vals errs).1 := by
  intro rem
  induction rem with
  | nil =>
    intro _ vals errs hgood
    simpa [mapFields] using hgood
  | cons fs₀ rest ih =>
    intro hsub vals errs hgood
    have hsub' : ∀ fs ∈ rest, fs ∈ S := fun fs hfs => hsub fs (List.mem_cons_of_mem _ hfs)
    simp only [mapFields]
    cases hex : extract raw fs₀ (intSiblings vals) with
    | absent => exact ih hsub' vals errs hgood
    | err e => exact ih hsub' vals (errs ++ [e]) hgood
    | ok v =>
      refine ih hsub' (vals ++ [(fs₀.name, v)]) errs ?_
      intro fs hfsS countField hshape v' hfind
      cases hold : alistFind vals fs.name with
      | some w =>
        have hfind' := alistFind_append_some vals [(fs₀.name, v)] fs.name w hold
        rw [hfind'] at hfind
        injection hfind with hv'
        obtain ⟨z, hz, hz0, hlen⟩ := hgood fs hfsS countField hshape w hold
        refine ⟨z, ?_, hz0, by rw [hv'] at hlen; exact hlen⟩
        rw [intSiblings_append]
        exact alistFind_append_some _ _ _ _ hz
      | none =>
        rw [alistFind_append_none vals [(fs₀.name, v)] fs.name hold] at hfind
        have hnv : fs.name = fs₀.name ∧ v' = v := by
          by_cases hp : fs₀.name = fs.name
          · simp only [alistFind, hp, if_true] at hfind
            injection hfind with hv'
            exact ⟨hp.symm, hv'.symm⟩
          · simp only [alistFind, hp, if_false] at hfind
            simp [alistFind] at hfind
        have hfs₀S : fs₀ ∈ S := hsub fs₀ (List.mem_cons_self _ _)
        have hfs_eq : fs = fs₀ := List.inj_on_of_nodup_map hndS hfsS hfs₀S hnv.1
        obtain ⟨z, hz, hz0, hlen⟩ :=
          extract_ok_ref raw fs₀ (intSiblings vals) countField v
            (by rw [← hfs_eq]; exact hshape) hex
        refine ⟨z, ?_, hz0, by rw [hnv.2]; exact hlen⟩
        rw [intSiblings_append]
        exact alistFind_append_some _ _ _ _ hz

/-- The `frequency` FieldSpec of the spec's shape-mismatch example:
float64 array in Hz whose shape references the sibling `n_modes`. -/
def frequencyFieldSpec : FieldSpec :=
  { name := "frequency", source_key := "frequency", ftype := .float64,
    unit := some "Hz", shape := .ref "n_modes", required := false }

/-- The resolved spec of the shape-mismatch example of spec.md
section 8: `n_modes`, then `frequency` and `reduced_mass` bound by it. -/
def shapeExampleSpecs : List FieldSpec :=
  [ { name := "n_modes", source_key := "n_modes", ftype := .int32,
      unit := none, shape := .scalar, required := false }
  , frequencyFieldSpec
  , { name := "reduced_mass", source_key := "reduced_mass", ftype := .float64,
      unit := none, shape := .ref "n_modes", required := false } ]

/-- Raw input of the shape-mismatch example: `n_modes = 3`, a frequency
array of length 2 (mismatched), a reduced-mass array of length 3. -/
def shapeExampleRaw : List (String × RawValue) :=
  [ ("n_modes", .num 3), ("frequency", .numList [1, 2])
  , ("reduced_mass", .numList [5, 6, 7]) ]

/-- Fields of the record produced on the shape-mismatch example: the
mismatched `frequency` excluded, the other valid fields included. -/
def shapeExampleFields : List (String × FieldValue) :=
  [("n_modes", .intVal 3), ("reduced_mass", .floatArr [5, 6, 7])]

/-- A well-shaped raw input for the witness: `n_modes = 2` and both
arrays of length 2. -/
def shapeWitnessRaw : List (String × RawValue) :=
  [ ("n_modes", .num 2), ("frequency", .numList [1, 2])
  , ("reduced_mass", .numList [5, 6]) ]

/-- Fields of the record produced on the well-shaped raw input. -/
def shapeWitnessFields : List (String × FieldValue) :=
  [ ("n_modes", .intVal 2), ("frequency", .unitArr [1, 2] "Hz")
  , ("reduced_mass", .floatArr [5, 6]) ]

/-- The record component of `map_record`, spelled out. -/
theorem map_record_fst (raw : List (String × RawValue)) (specs : List FieldSpec)
    (strict : Bool) :
    (map_record raw specs strict).1
      = if (strict && !(mapFields raw specs [] []).2.isEmpty)
            || hasRequiredError specs (mapFields raw specs [] []).2 then none
        else some { fields := (mapFields raw specs [] []).1 } := rfl

/-- Claim C3: shape invariant for sibling-count array fields.  First
conjunct: for every record `map_record` produces (spec field names
distinct), every array field whose shape references a named sibling
count field has length exactly that count field's (present,
non-negative) value.  Second conjunct, the spec's concrete example:
`frequency` with shape `[n_modes]`, `n_modes = 3` and a raw array of
length 2 yields `ShapeMismatchError(expected=3, actual=2)`, the record
excludes `frequency` but still includes the other valid fields. -/
theorem map_record_sibling_shape_invariant :
    (∀ (raw : List (String × RawValue)) (specs : List FieldSpec) (strict : Bool)
        (r : MappedRecord),
      (specs.map FieldSpec.name).Nodup →
      (map_record raw specs strict).1 = some r →
      ∀ fs ∈ specs, ∀ countField, fs.shape = FieldShape.ref countField →
      ∀ v, alistFind r.fields fs.name = some v →
      ∃ z : ℤ, alistFind (intSiblings r.fields) countField = some z ∧ 0 ≤ z
        ∧ v.arrLen = some z.toNat)
    ∧ (map_record shapeExampleRaw shapeExampleSpecs false
        = (some { fields := shapeExampleFields },
            [FieldError.shapeMismatch "frequency" 3 2])
      ∧ alistFind shapeExampleFields "frequency" = none
      ∧ alistFind shapeExampleFields "n_modes" = some (FieldValue.intVal 3)
      ∧ alistFind shapeExampleFields "reduced_mass"
          = some (FieldValue.floatArr [5, 6, 7])) := by
  constructor
  · intro raw specs strict r hnd hrec fs hfs countField hshape v hfind
    have hgood : GoodVals specs (mapFields raw specs [] []).1 :=
      mapFields_goodVals raw specs hnd specs (fun _ h => h) [] []
        (fun fs _ countField _ v hv => by simp [alistFind] at hv)
    have hfields : r.fields = (mapFields raw specs [] []).1 := by
      rw [map_record_fst] at hrec
      cases hcond : (strict && !(mapFields raw specs [] []).2.isEmpty)
          || hasRequiredError specs (mapFields raw specs [] []).2 with
      | true => rw [hcond] at hrec; simp at hrec
      | false =>
        rw [hcond] at hrec
        simp only [Bool.false_eq_true, if_false, Option.some.injEq] at hrec
        rw [← hrec]
    rw [hfields] at hfind ⊢
    exact hgood fs hfs countField hshape v hfind
  · exact ⟨by decide, by decide, by decide, by decide⟩

/-- Claim C3, witness: on a well-shaped input the produced record
satisfies the invariant — the count `n_modes = 2` is present among the
siblings and the `frequency` array has length 2. -/
theorem map_record_sibling_shape_invariant_witness :
    ∃ z : ℤ, alistFind (intSiblings shapeWitnessFields) "n_modes" = some z ∧ 0 ≤ z
      ∧ (FieldValue.unitArr [1, 2] "Hz").arrLen = some z.toNat :=
  map_record_sibling_shape_invariant.1 shapeWitnessRaw shapeExampleSpecs false
    { fields := shapeWitnessFields } (by decide) (by decide) frequencyFieldSpec
    (by decide) "n_modes" rfl (FieldValue.unitArr [1, 2] "Hz") (by decide)
